import Mathlib

/-!
Verification development for the lilygo-epd47-rs repository.

Two Rust components are embedded:
* `Epd47` — the esp-idf driver `slint-chat-epd47/src/epd47_idf.rs`
  (`Epd47Display`: framebuffer, config register, power sequencing, flush,
  drawing-target bridge).
* `Lily` — the `lilygo_epd47` crate: `src/rmt.rs` (`Rmt` pulse channel) and
  `src/graphics.rs` (`DrawTarget` bridge for `Display`).  The crate's
  `display.rs` is not part of the sources at hand, so `Display::set_pixel`
  is modelled from the specification, as marked in its doc comment.

Machine integers are embedded as `Nat` (with explicit `% 2 ^ w` where a cast
truncates); bitwise masks on bytes are written in their exact arithmetic
form (`b &&& 0x0F = b % 16`, `b &&& 0xF0 = b / 16 % 16 * 16`,
disjoint `|||` as `+`), which is an identity on all of `Nat`.
GPIO line toggles (`set_low`/`set_high`) can only fail with an external HAL
error (`EspError`); the embedding models the pins as a pure recording
environment, so those externally-caused failures are absent and the register
writes and delays are recorded in an event trace instead.
-/

namespace Epd47

/-- `DISPLAY_WIDTH` from epd47_idf.rs. -/
def DISPLAY_WIDTH : Nat := 960

/-- `DISPLAY_HEIGHT` from epd47_idf.rs. -/
def DISPLAY_HEIGHT : Nat := 540

/-- `FRAMEBUFFER_SIZE = WIDTH*HEIGHT/2` (4 bits per pixel). -/
def FRAMEBUFFER_SIZE : Nat := DISPLAY_WIDTH * DISPLAY_HEIGHT / 2

/-- `Epd47Error` from epd47_idf.rs (the `Gpio(EspError)` variant carries an
external HAL error; its payload is irrelevant to the embedded logic). -/
inductive Epd47Error where
  | Gpio
  | Hardware
  | InvalidColor
  | OutOfBounds
deriving DecidableEq, Repr

/-- The packed 4-bit-per-pixel framebuffer: byte at each index.
All operations keep every byte below 256. -/
structure FrameBuffer where
  data : Nat → Nat

/-- The framebuffer as initialized in `Epd47Display::new`:
`vec![0xFF; FRAMEBUFFER_SIZE]` (white). -/
def initialFrameBuffer : FrameBuffer := ⟨fun _ => 0xFF⟩

/-- `Epd47Display::set_pixel` (epd47_idf.rs lines 153-177), acting on the
framebuffer.  Returns the `Result` outcome together with the (possibly
unchanged) framebuffer, mirroring `&mut self`.
`(b & 0x0F) | (color << 4)` is written `b % 16 + color * 16` and
`(b & 0xF0) | color` is written `b / 16 % 16 * 16 + color`; both rewrites
are identities on `Nat`. -/
def set_pixel (x y color : Nat) (fb : FrameBuffer) :
    Except Epd47Error Unit × FrameBuffer :=
  if x ≥ DISPLAY_WIDTH ∨ y ≥ DISPLAY_HEIGHT then
    (.error .OutOfBounds, fb)
  else if color > 0x0F then
    (.error .InvalidColor, fb)
  else
    let pixel_index := y * DISPLAY_WIDTH + x
    let byte_index := pixel_index / 2
    let is_high_nibble := pixel_index % 2 = 0
    if byte_index ≥ FRAMEBUFFER_SIZE then
      (.error .OutOfBounds, fb)
    else if is_high_nibble then
      (.ok (), ⟨fun i => if i = byte_index
        then fb.data byte_index % 16 + color * 16
        else fb.data i⟩)
    else
      (.ok (), ⟨fun i => if i = byte_index
        then fb.data byte_index / 16 % 16 * 16 + color
        else fb.data i⟩)

/-- Read back the nibble addressed exactly as `set_pixel` addresses it
(even linear pixel index → high nibble, odd → low nibble); this is the
diagnostic read direction the spec describes for the packed raster. -/
def get_pixel (x y : Nat) (fb : FrameBuffer) : Nat :=
  let pixel_index := y * DISPLAY_WIDTH + x
  let byte_index := pixel_index / 2
  if pixel_index % 2 = 0 then fb.data byte_index / 16 % 16
  else fb.data byte_index % 16

/-- Observable events of the driver: a committed config-register byte,
a blocking millisecond delay, or an RMT waveform pulse. -/
inductive Event where
  | writeReg (b : Nat)
  | delayMs (n : Nat)
  | pulse (high low : Nat)
deriving DecidableEq, Repr

/-- Driver state of `Epd47Display`: framebuffer, the `powered_on` flag, and
the byte last shifted out and latched by `write_config_register` (the
physical register content, used to state the persistence claims). -/
structure St where
  framebuffer : FrameBuffer
  powered_on : Bool
  lastCommitted : Nat

/-- `Epd47Display::write_config_register` (lines 241-260): shifts the 8 bits
of `value` out MSB-first and strobes them into the latch.  The latched byte
is `value % 256` (`value` is a `u8`); the event trace records the write. -/
def write_config_register (value : Nat) (s : St) : St × List Event :=
  ({ s with lastCommitted := value % 256 }, [.writeReg (value % 256)])

/-- `set_config_power` (lines 213-220): byte `0x04` iff enabled, else 0. -/
def set_config_power (enable : Bool) (s : St) : St × List Event :=
  write_config_register (if enable then 0x04 else 0x00) s

/-- `set_config_voltages` (lines 222-231): `0x04` ("keep power enabled")
or-ed with `0x08` / `0x10` for the positive / negative rails
(disjoint bits, so `|=` is `+`). -/
def set_config_voltages (pos_enable neg_enable : Bool) (s : St) :
    St × List Event :=
  write_config_register
    (0x04 + (if pos_enable then 0x08 else 0) + (if neg_enable then 0x10 else 0)) s

/-- `set_config_output_enable` (lines 233-239): `0x1C` ("keep power and
voltages enabled") or-ed with `0x01` iff enabled (disjoint bits). -/
def set_config_output_enable (enable : Bool) (s : St) : St × List Event :=
  write_config_register (0x1C + (if enable then 0x01 else 0)) s

/-- `Epd47Display::power_on` (lines 97-120): early-return when already on,
otherwise power bit, 10 ms, both voltage bits, 20 ms, output bit, 5 ms,
then mark `powered_on`. -/
def power_on (s : St) : St × List Event :=
  if s.powered_on then (s, [])
  else
    let (s1, e1) := set_config_power true s
    let (s2, e2) := set_config_voltages true true s1
    let (s3, e3) := set_config_output_enable true s2
    ({ s3 with powered_on := true },
      e1 ++ [.delayMs 10] ++ e2 ++ [.delayMs 20] ++ e3 ++ [.delayMs 5])

/-- `Epd47Display::power_off` (lines 122-142): early-return when already off,
otherwise the reverse sequence with the reverse delays, then clear
`powered_on`. -/
def power_off (s : St) : St × List Event :=
  if !s.powered_on then (s, [])
  else
    let (s1, e1) := set_config_output_enable false s
    let (s2, e2) := set_config_voltages false false s1
    let (s3, e3) := set_config_power false s2
    ({ s3 with powered_on := false },
      e1 ++ [.delayMs 5] ++ e2 ++ [.delayMs 20] ++ e3 ++ [.delayMs 10])

/-- `DrawMode` from epd47_idf.rs. -/
inductive DrawMode where
  | BlackOnWhite
  | WhiteOnBlack
  | WhiteOnWhite
deriving DecidableEq, Repr

/-- `Epd47Display::flush` (lines 179-198): fails with `Hardware` when not
powered on; otherwise only simulates the refresh with a 100 ms delay —
it reads no framebuffer byte and emits no pulse or register write. -/
def flush (_mode : DrawMode) (s : St) :
    Except Epd47Error Unit × St × List Event :=
  if !s.powered_on then (.error .Hardware, s, [])
  else (.ok (), s, [.delayMs 100])

/-- State after `Epd47Display::new`: white framebuffer, not powered,
`init_config_registers` has committed `0x00`. -/
def initState : St := ⟨initialFrameBuffer, false, 0⟩

/-- `DrawTarget::draw_iter for Epd47Display` (epd47_idf.rs lines 268-279):
skips a pixel when `point.x < 0 || point.y < 0`; otherwise casts the
coordinates `i32 → u32` (nonnegative, so the cast is `Int.toNat`) and calls
`set_pixel`, propagating every error with `?` — including `OutOfBounds`.
A pixel is `(x, y, luma)` with signed coordinates and the 4-bit gray level
produced by `color.luma()`. -/
def draw_iter (fb : FrameBuffer) :
    List (Int × Int × Nat) → Except Epd47Error FrameBuffer
  | [] => .ok fb
  | (x, y, luma) :: rest =>
    if x ≥ 0 ∧ y ≥ 0 then
      match set_pixel x.toNat y.toNat luma fb with
      | (.error e, _) => .error e
      | (.ok _, fb1) => draw_iter fb1 rest
    else
      draw_iter fb rest

end Epd47

namespace Lily

/-- Panel geometry of the `lilygo_epd47` crate's `Display`
(`Display::WIDTH`, fixed per hardware variant: 960×540). -/
def WIDTH : Nat := 960

/-- `Display::HEIGHT`. -/
def HEIGHT : Nat := 540

/-- The crate's `Error` type (`crate::Error`): `Rmt` and `Unknown` are the
variants used by rmt.rs, `OutOfBounds` and `InvalidColor` the validation
errors used by graphics.rs / the display per the spec's error model. -/
inductive Error where
  | Rmt
  | Unknown
  | OutOfBounds
  | InvalidColor
deriving DecidableEq, Repr

/-- An RMT pulse-code entry as built by `esp_hal::rmt::PulseCode::new
(level1, length1, level2, length2)`: two halves, each a logic level and a
tick count. -/
structure PulseCode where
  level1 : Bool
  length1 : Nat
  level2 : Bool
  length2 : Nat
deriving DecidableEq, Repr

/-- `PulseCode::new(level1, length1, level2, length2)`. -/
def PulseCode.new (l1 : Bool) (n1 : Nat) (l2 : Bool) (n2 : Nat) : PulseCode :=
  ⟨l1, n1, l2, n2⟩

/-- `PulseCode::empty()`: the all-zero entry, the RMT end-of-train marker. -/
def PulseCode.empty : PulseCode := ⟨false, 0, false, 0⟩

/-- The state of `Rmt` (rmt.rs lines 14-17): the driver's local ownership
slot for the single hardware TX channel.  The channel itself carries no
embedded data, so it is `Unit`; `none` is an empty slot. -/
structure RmtState where
  tx_channel : Option Unit
deriving DecidableEq, Repr

/-- Outcomes of the three fallible hardware interactions inside one `pulse`
call, supplied by the environment: whether `rmt::Rmt::new` +
`channel1.configure` succeed, whether `transmit` succeeds, and whether
`wait` succeeds. -/
structure HwOutcome where
  constructOk : Bool
  transmitOk : Bool
  waitOk : Bool
deriving DecidableEq, Repr

/-- `Rmt::ensure_channel` (rmt.rs lines 28-53): no-op when the slot already
holds a channel; otherwise constructs the RMT peripheral driver and
configures channel 1 (fallible, surfaced as `Error::Rmt`), storing the new
channel in the slot. -/
def ensure_channel (hw : HwOutcome) (s : RmtState) :
    Except Error Unit × RmtState :=
  if s.tx_channel.isSome then (.ok (), s)
  else if hw.constructOk then (.ok (), ⟨some ()⟩)
  else (.error .Rmt, s)

/-- The two-entry pulse program built inside `Rmt::pulse`
(rmt.rs lines 58-62). -/
def pulseData (high low : Nat) : List PulseCode :=
  if high > 0 then [PulseCode.new true high false low, PulseCode.empty]
  else [PulseCode.new true low false 0, PulseCode.empty]

/-- `Rmt::pulse` (rmt.rs lines 55-74).  Returns the `Result`, the state of
the ownership slot after the call, and the pulse program whose transmission
was started (`none` when no transmission started).
Stepping through the source: `ensure_channel()?`; `take().ok_or(Unknown)?`
empties the slot; `transmit(&data)` starts transmission or fails with
`Error::Rmt` (the taken channel is consumed either way); if `wait`, `wait()`
returns the channel to the slot on success and fails with `Error::Rmt`
otherwise; if not `wait`, the function returns with the slot left empty. -/
def pulse (hw : HwOutcome) (high low : Nat) (wait : Bool) (s : RmtState) :
    Except Error Unit × RmtState × Option (List PulseCode) :=
  match ensure_channel hw s with
  | (.error e, s1) => (.error e, s1, none)
  | (.ok _, s1) =>
    match s1.tx_channel with
    | none => (.error .Unknown, ⟨none⟩, none)
    | some _ =>
      let data := pulseData high low
      if !hw.transmitOk then (.error .Rmt, ⟨none⟩, none)
      else if wait then
        if hw.waitOk then (.ok (), ⟨some ()⟩, some data)
        else (.error .Rmt, ⟨none⟩, some data)
      else (.ok (), ⟨none⟩, some data)

/-- Modelled from the spec: the crate's `Display::set_pixel` lives in
`display.rs`, which is not among the sources at hand (graphics.rs only
calls it).  Following spec §4.1 and §3: validate bounds against the fixed
panel geometry (`OutOfBounds`), then validate `level ≤ 15` (`InvalidColor`,
never clamped), then write the level into the addressed nibble of the
packed framebuffer (even linear pixel index `y*WIDTH+x` → high nibble, odd
→ low nibble) without disturbing the adjacent pixel.  On error the
framebuffer is unchanged. -/
def set_pixel (x y level : Nat) (fb : Epd47.FrameBuffer) :
    Except Error Epd47.FrameBuffer :=
  if x ≥ WIDTH ∨ y ≥ HEIGHT then .error .OutOfBounds
  else if level > 15 then .error .InvalidColor
  else
    let pixel_index := y * WIDTH + x
    let byte_index := pixel_index / 2
    if pixel_index % 2 = 0 then
      .ok ⟨fun i => if i = byte_index
        then fb.data byte_index % 16 + level * 16
        else fb.data i⟩
    else
      .ok ⟨fun i => if i = byte_index
        then fb.data byte_index / 16 % 16 * 16 + level
        else fb.data i⟩

/-- The `i32 → u16` cast (`coord.x as u16`) used by graphics.rs: two's
complement truncation to 16 bits. -/
def trunc_u16 (i : Int) : Nat := (i % 65536).toNat

/-- `DrawTarget::draw_iter for Display` (graphics.rs lines 10-22): for each
pixel, call `set_pixel(coord.x as u16, coord.y as u16, color.luma())`;
if the result is `Err(Error::OutOfBounds)`, `continue`; every other error
is propagated by `result?`, aborting the draw.  A pixel is `(x, y, luma)`
with signed 32-bit coordinates and the gray level the stream yields. -/
def draw_iter (fb : Epd47.FrameBuffer) :
    List (Int × Int × Nat) → Except Error Epd47.FrameBuffer
  | [] => .ok fb
  | (x, y, luma) :: rest =>
    match set_pixel (trunc_u16 x) (trunc_u16 y) luma fb with
    | .error .OutOfBounds => draw_iter fb rest
    | .error e => .error e
    | .ok fb1 => draw_iter fb1 rest

/-- The nibble read-back for the crate's framebuffer, addressed as
`set_pixel` addresses it. -/
def get_pixel (x y : Nat) (fb : Epd47.FrameBuffer) : Nat :=
  let pixel_index := y * WIDTH + x
  let byte_index := pixel_index / 2
  if pixel_index % 2 = 0 then fb.data byte_index / 16 % 16
  else fb.data byte_index % 16

end Lily

/-! ## Theorems for the claims -/

/-- C6: for every `DrawMode` and framebuffer state, calling `flush(mode)`
while the display is not powered on fails with a `Hardware` error and leaves
the whole state — in particular the framebuffer — unchanged, emitting no
events. -/
theorem C6_flush_off_fails (mode : Epd47.DrawMode) (s : Epd47.St)
    (h : s.powered_on = false) :
    Epd47.flush mode s = (.error .Hardware, s, []) := by
  simp [Epd47.flush, h]

/-- Witness for C6 at the freshly constructed display. -/
theorem C6_witness :
    Epd47.initState.powered_on = false ∧
    Epd47.flush .BlackOnWhite Epd47.initState =
      (.error .Hardware, Epd47.initState, []) :=
  ⟨rfl, C6_flush_off_fails .BlackOnWhite Epd47.initState rfl⟩

/-- C9: `power_on` and `power_off` are idempotent: the second of two
consecutive calls is a successful no-op performing no register writes and no
settle delays (empty event trace); equivalently, `power_on` on an already-on
state and `power_off` on an already-off state do nothing. -/
theorem C9_power_idempotent (s : Epd47.St) :
    Epd47.power_on (Epd47.power_on s).1 = ((Epd47.power_on s).1, []) ∧
    Epd47.power_off (Epd47.power_off s).1 = ((Epd47.power_off s).1, []) ∧
    (s.powered_on = true → Epd47.power_on s = (s, [])) ∧
    (s.powered_on = false → Epd47.power_off s = (s, [])) := by
  cases h : s.powered_on <;>
    simp [Epd47.power_on, Epd47.power_off, Epd47.set_config_power,
      Epd47.set_config_voltages, Epd47.set_config_output_enable,
      Epd47.write_config_register, h]

/-- Witness for C9 at the freshly constructed display. -/
theorem C9_witness :
    Epd47.power_on (Epd47.power_on Epd47.initState).1 =
      ((Epd47.power_on Epd47.initState).1, []) ∧
    Epd47.power_off Epd47.initState = (Epd47.initState, []) :=
  ⟨(C9_power_idempotent Epd47.initState).1,
    (C9_power_idempotent Epd47.initState).2.2.2 rfl⟩

/-- C8: `set_pixel` on an out-of-bounds coordinate fails with `OutOfBounds`
and leaves the framebuffer unmodified; on an in-bounds coordinate with a
level above 15 it fails with `InvalidColor` (never clamping) and leaves the
framebuffer unmodified. -/
theorem C8_set_pixel_validation (x y c : Nat) (fb : Epd47.FrameBuffer) :
    (x ≥ Epd47.DISPLAY_WIDTH ∨ y ≥ Epd47.DISPLAY_HEIGHT →
      Epd47.set_pixel x y c fb = (.error .OutOfBounds, fb)) ∧
    (x < Epd47.DISPLAY_WIDTH → y < Epd47.DISPLAY_HEIGHT → c > 15 →
      Epd47.set_pixel x y c fb = (.error .InvalidColor, fb)) := by
  constructor
  · intro h
    rw [Epd47.set_pixel, if_pos h]
  · intro hx hy hc
    rw [Epd47.set_pixel, if_neg (by omega), if_pos hc]

/-- Witness for C8: an out-of-bounds write and an invalid-level write on the
fresh framebuffer. -/
theorem C8_witness :
    Epd47.set_pixel 1000 0 3 Epd47.initialFrameBuffer =
      (.error .OutOfBounds, Epd47.initialFrameBuffer) ∧
    Epd47.set_pixel 5 5 16 Epd47.initialFrameBuffer =
      (.error .InvalidColor, Epd47.initialFrameBuffer) :=
  ⟨(C8_set_pixel_validation 1000 0 3 Epd47.initialFrameBuffer).1 (by decide),
    (C8_set_pixel_validation 5 5 16 Epd47.initialFrameBuffer).2
      (by decide) (by decide) (by decide)⟩

/-- C2: contrary to the claim, `Epd47Display::flush` transfers nothing: for
every mode, on a powered-on state it returns `Ok` after only a simulated
100 ms delay — the state (framebuffer included) is untouched and the event
trace contains no pulse and no register write.  The code's own comment says
the actual implementation would need to send the framebuffer and apply RMT
waveforms. -/
theorem C2_flush_is_stub (mode : Epd47.DrawMode) (s : Epd47.St)
    (h : s.powered_on = true) :
    Epd47.flush mode s = (.ok (), s, [Epd47.Event.delayMs 100]) := by
  simp [Epd47.flush, h]

/-- Witness for C2 at a powered-on display with the fresh framebuffer. -/
theorem C2_witness :
    Epd47.flush .BlackOnWhite ⟨Epd47.initialFrameBuffer, true, 0x1D⟩ =
      (.ok (), ⟨Epd47.initialFrameBuffer, true, 0x1D⟩,
        [Epd47.Event.delayMs 100]) :=
  C2_flush_is_stub .BlackOnWhite ⟨Epd47.initialFrameBuffer, true, 0x1D⟩ rfl

/-- C10: the graphics.rs bridge truncates `i32` coordinates to 16 bits
before the bounds check: `x = -65216` truncates to `320`, and drawing the
single pixel `(-65216, 5)` at level 0 completes and writes level 0 into the
framebuffer at the wrapped coordinate `(320, 5)` (previously white, 15) —
so not every out-of-panel signed coordinate is skipped. -/
theorem C10_truncation_wraps :
    Lily.trunc_u16 (-65216) = 320 ∧
    (Lily.draw_iter Epd47.initialFrameBuffer [((-65216 : Int), 5, 0)]).map
      (fun fb => Lily.get_pixel 320 5 fb) = .ok 0 ∧
    Lily.get_pixel 320 5 Epd47.initialFrameBuffer = 15 :=
  ⟨rfl, rfl, rfl⟩

/-- C1 counterexample: after committing power-only (byte `0x04`), enabling
output-enable commits `0x1D`, whose power/voltage bits (`& 0x1C`) are
`0x1C`, not the `0x04` of the last committed state — voltage bits are
gained that the last committed state did not have, refuting the claim that
the byte's power and voltage bits always equal those of the last committed
state. -/
theorem C1_counterexample :
    ((Epd47.set_config_output_enable true
        (Epd47.set_config_power true Epd47.initState).1).1.lastCommitted
      &&& 0x1C) = 0x1C ∧
    ((Epd47.set_config_power true Epd47.initState).1.lastCommitted
      &&& 0x1C) = 0x04 ∧
    (0x1C : Nat) ≠ 0x04 := by
  decide

/-- C1 amended: each derived config operation computes its byte as a pure
function of its boolean arguments alone — the byte is independent of the
logical state the display is in.  The output-enable byte always carries the
hard-coded power+voltage bits `0x1C`, so it preserves the last committed
state's power/voltage bits exactly when that state already had power and
both voltages committed (as after the voltages step of the `power_on`
ordering), and enabling output then changes no power/voltage bit. -/
theorem C1_config_bytes_pure (s t : Epd47.St) (e pos neg : Bool) :
    ((Epd47.set_config_power e s).1.lastCommitted =
      (Epd47.set_config_power e t).1.lastCommitted) ∧
    ((Epd47.set_config_voltages pos neg s).1.lastCommitted =
      (Epd47.set_config_voltages pos neg t).1.lastCommitted) ∧
    ((Epd47.set_config_output_enable e s).1.lastCommitted =
      (Epd47.set_config_output_enable e t).1.lastCommitted) ∧
    ((Epd47.set_config_output_enable e s).1.lastCommitted &&& 0x1C = 0x1C) ∧
    (s.lastCommitted &&& 0x1C = 0x1C →
      (Epd47.set_config_output_enable e s).1.lastCommitted &&& 0x1C =
        s.lastCommitted &&& 0x1C) := by
  refine ⟨rfl, rfl, rfl, ?_, ?_⟩
  · cases e <;>
      simp [Epd47.set_config_output_enable, Epd47.write_config_register] <;>
      decide
  · intro h
    rw [h]
    cases e <;>
      simp [Epd47.set_config_output_enable, Epd47.write_config_register] <;>
      decide

/-- Witness for C1: enabling output after committing `0x1C` (power and both
voltages) preserves the committed power/voltage bits. -/
theorem C1_witness :
    ((Epd47.set_config_voltages true true Epd47.initState).1.lastCommitted
      &&& 0x1C = 0x1C) ∧
    (Epd47.set_config_output_enable true
        (Epd47.set_config_voltages true true Epd47.initState).1).1.lastCommitted
      &&& 0x1C =
      (Epd47.set_config_voltages true true Epd47.initState).1.lastCommitted
        &&& 0x1C :=
  ⟨by decide,
    (C1_config_bytes_pure (Epd47.set_config_voltages true true Epd47.initState).1
      Epd47.initState true true true).2.2.2.2 (by decide)⟩

/-- C5 counterexample: the program built by `pulse(0, 5, _)` starts with
`PulseCode::new(true, 5, false, 0)` — a logic-HIGH pulse of 5 ticks — not
the logic-low (suppressed) pulse the claim states. -/
theorem C5_counterexample :
    (Lily.pulseData 0 5).head? = some (Lily.PulseCode.new true 5 false 0) ∧
    (Lily.PulseCode.new true 5 false 0).level1 ≠ false := by
  decide

/-- C5 amended: for `high > 0` the program is (logic-high for `high` ticks,
logic-low for `low` ticks) followed by the end-of-train marker; for
`high = 0` it is a single logic-HIGH pulse of `low` ticks (with a
zero-length logic-low second half) followed by the end-of-train marker; and
whenever `pulse` starts a transmission, the data transmitted is exactly
this program. -/
theorem C5_pulse_program (hw : Lily.HwOutcome) (high low : Nat) (wait : Bool)
    (s : Lily.RmtState) :
    (high > 0 → Lily.pulseData high low =
      [Lily.PulseCode.new true high false low, Lily.PulseCode.empty]) ∧
    (high = 0 → Lily.pulseData high low =
      [Lily.PulseCode.new true low false 0, Lily.PulseCode.empty]) ∧
    (∀ d, (Lily.pulse hw high low wait s).2.2 = some d →
      d = Lily.pulseData high low) := by
  refine ⟨fun h => by simp [Lily.pulseData, h],
    fun h => by simp [Lily.pulseData, h], ?_⟩
  intro d hd
  obtain ⟨c1, c2, c3⟩ := hw
  obtain ⟨ch⟩ := s
  cases ch <;> cases c1 <;> cases c2 <;> cases c3 <;> cases wait <;>
    simp [Lily.pulse, Lily.ensure_channel] at hd <;> simp [hd]

/-- Witness for C5: the two program shapes at `high = 3` / `high = 0` with
`low = 5`, and the transmitted data of a successful blocking pulse. -/
theorem C5_witness :
    Lily.pulseData 3 5 =
      [Lily.PulseCode.new true 3 false 5, Lily.PulseCode.empty] ∧
    Lily.pulseData 0 5 =
      [Lily.PulseCode.new true 5 false 0, Lily.PulseCode.empty] ∧
    [Lily.PulseCode.new true 3 false 5, Lily.PulseCode.empty] =
      Lily.pulseData 3 5 :=
  ⟨(C5_pulse_program ⟨true, true, true⟩ 3 5 true ⟨none⟩).1 (by decide),
    (C5_pulse_program ⟨true, true, true⟩ 0 5 true ⟨none⟩).2.1 rfl,
    (C5_pulse_program ⟨true, true, true⟩ 3 5 true ⟨none⟩).2.2
      [Lily.PulseCode.new true 3 false 5, Lily.PulseCode.empty] rfl⟩

/-- C4: the pulse-channel ownership discipline of `Rmt`.  (1) A successful
`pulse(_, _, wait = true)` leaves the channel back in the ownership slot;
(2) a successful `pulse(_, _, wait = false)` leaves the slot empty;
(3) a state whose slot holds a channel is immediately reusable —
`ensure_channel` succeeds without reconstruction; (4) with an empty slot and
failing channel construction, `pulse` surfaces the explicit `Rmt` error and
starts no transmission; (5) with an empty slot, successful reconstruction
and a working transmitter, `pulse` re-establishes the channel and transmits
the pulse program — never undefined behavior. -/
theorem C4_channel_ownership (hw : Lily.HwOutcome) (high low : Nat)
    (s : Lily.RmtState) :
    ((Lily.pulse hw high low true s).1 = .ok () →
      (Lily.pulse hw high low true s).2.1.tx_channel = some ()) ∧
    ((Lily.pulse hw high low false s).1 = .ok () →
      (Lily.pulse hw high low false s).2.1.tx_channel = none) ∧
    (∀ t : Lily.RmtState, t.tx_channel = some () → ∀ hw2,
      Lily.ensure_channel hw2 t = (.ok (), t)) ∧
    (s.tx_channel = none → hw.constructOk = false → ∀ wait,
      Lily.pulse hw high low wait s = (.error .Rmt, s, none)) ∧
    (s.tx_channel = none → hw.constructOk = true → hw.transmitOk = true →
      ∀ wait,
      (Lily.pulse hw high low wait s).2.2 = some (Lily.pulseData high low)) := by
  obtain ⟨c1, c2, c3⟩ := hw
  obtain ⟨ch⟩ := s
  refine ⟨?_, ?_, ?_, ?_, ?_⟩
  · rcases ch with _ | ⟨⟩ <;> cases c1 <;> cases c2 <;> cases c3 <;>
      simp [Lily.pulse, Lily.ensure_channel]
  · rcases ch with _ | ⟨⟩ <;> cases c1 <;> cases c2 <;> cases c3 <;>
      simp [Lily.pulse, Lily.ensure_channel]
  · intro t ht hw2
    simp [Lily.ensure_channel, ht]
  · intro h1 h2 wait
    simp only at h1 h2
    subst h1 h2
    cases c2 <;> cases c3 <;> cases wait <;>
      simp [Lily.pulse, Lily.ensure_channel]
  · intro h1 h2 h3 wait
    simp only at h1 h2 h3
    subst h1 h2 h3
    cases c3 <;> cases wait <;>
      simp [Lily.pulse, Lily.ensure_channel]

/-- Witness for C4: a blocking pulse refills the slot, a non-blocking pulse
leaves it empty, a full slot needs no reconstruction, a failed
reconstruction is an explicit `Rmt` error with no transmission, and a
non-blocking pulse from an empty slot still transmits the program. -/
theorem C4_witness :
    (Lily.pulse ⟨true, true, true⟩ 3 5 true ⟨none⟩).2.1.tx_channel =
      some () ∧
    (Lily.pulse ⟨true, true, true⟩ 3 5 false ⟨none⟩).2.1.tx_channel =
      none ∧
    Lily.ensure_channel ⟨false, false, false⟩ ⟨some ()⟩ =
      (.ok (), ⟨some ()⟩) ∧
    Lily.pulse ⟨false, true, true⟩ 3 5 true ⟨none⟩ =
      (.error .Rmt, ⟨none⟩, none) ∧
    (Lily.pulse ⟨true, true, true⟩ 3 5 false ⟨none⟩).2.2 =
      some (Lily.pulseData 3 5) :=
  ⟨(C4_channel_ownership ⟨true, true, true⟩ 3 5 ⟨none⟩).1 rfl,
    (C4_channel_ownership ⟨true, true, true⟩ 3 5 ⟨none⟩).2.1 rfl,
    (C4_channel_ownership ⟨true, true, true⟩ 3 5 ⟨none⟩).2.2.1
      ⟨some ()⟩ rfl ⟨false, false, false⟩,
    (C4_channel_ownership ⟨false, true, true⟩ 3 5 ⟨none⟩).2.2.2.1
      rfl rfl true,
    (C4_channel_ownership ⟨true, true, true⟩ 3 5 ⟨none⟩).2.2.2.2
      rfl rfl rfl false⟩

/-- C7: for every in-bounds coordinate and level at most 15, `set_pixel`
succeeds, re-reading the addressed nibble yields exactly that level, and
every other in-bounds pixel's nibble — in particular the adjacent pixel
sharing the same byte — is unchanged. -/
theorem C7_set_pixel_roundtrip (x y c : Nat) (fb : Epd47.FrameBuffer)
    (hx : x < Epd47.DISPLAY_WIDTH) (hy : y < Epd47.DISPLAY_HEIGHT)
    (hc : c ≤ 15) :
    (Epd47.set_pixel x y c fb).1 = .ok () ∧
    Epd47.get_pixel x y (Epd47.set_pixel x y c fb).2 = c ∧
    ∀ a b, a < Epd47.DISPLAY_WIDTH → b < Epd47.DISPLAY_HEIGHT →
      ¬(a = x ∧ b = y) →
      Epd47.get_pixel a b (Epd47.set_pixel x y c fb).2 =
        Epd47.get_pixel a b fb := by
  simp only [Epd47.DISPLAY_WIDTH, Epd47.DISPLAY_HEIGHT] at hx hy
  refine ⟨?_, ?_, ?_⟩
  · simp only [Epd47.set_pixel, Epd47.DISPLAY_WIDTH, Epd47.DISPLAY_HEIGHT,
      Epd47.FRAMEBUFFER_SIZE]
    split_ifs <;> first | rfl | omega
  · simp only [Epd47.set_pixel, Epd47.get_pixel, Epd47.DISPLAY_WIDTH,
      Epd47.DISPLAY_HEIGHT, Epd47.FRAMEBUFFER_SIZE]
    split_ifs <;> simp_all <;> omega
  · intro a b ha hb hne
    simp only [Epd47.DISPLAY_WIDTH, Epd47.DISPLAY_HEIGHT] at ha hb
    simp only [Epd47.set_pixel, Epd47.get_pixel, Epd47.DISPLAY_WIDTH,
      Epd47.DISPLAY_HEIGHT, Epd47.FRAMEBUFFER_SIZE]
    by_cases hbi : (b * 960 + a) / 2 = (y * 960 + x) / 2
    · split_ifs <;> try simp_all [hbi]
      all_goals omega
    · split_ifs <;> simp_all [hbi]

/-- Witness for C7: writing level 7 at (3, 0) reads back 7 and leaves the
adjacent pixel (2, 0), which shares the same byte, at white. -/
theorem C7_witness :
    (Epd47.set_pixel 3 0 7 Epd47.initialFrameBuffer).1 = .ok () ∧
    Epd47.get_pixel 3 0 (Epd47.set_pixel 3 0 7 Epd47.initialFrameBuffer).2 = 7 ∧
    Epd47.get_pixel 2 0 (Epd47.set_pixel 3 0 7 Epd47.initialFrameBuffer).2 =
      Epd47.get_pixel 2 0 Epd47.initialFrameBuffer :=
  ⟨(C7_set_pixel_roundtrip 3 0 7 Epd47.initialFrameBuffer
      (by decide) (by decide) (by decide)).1,
    (C7_set_pixel_roundtrip 3 0 7 Epd47.initialFrameBuffer
      (by decide) (by decide) (by decide)).2.1,
    (C7_set_pixel_roundtrip 3 0 7 Epd47.initialFrameBuffer
      (by decide) (by decide) (by decide)).2.2 2 0
      (by decide) (by decide) (by decide)⟩

/-- Helper: `Display::set_pixel` rejects an out-of-bounds truncated
coordinate with `OutOfBounds`. -/
theorem lily_set_pixel_oob (x y l : Nat) (fb : Epd47.FrameBuffer)
    (h : ¬(x < Lily.WIDTH ∧ y < Lily.HEIGHT)) :
    Lily.set_pixel x y l fb = .error .OutOfBounds := by
  rw [Lily.set_pixel, if_pos (by omega)]

/-- Helper: `Display::set_pixel` rejects an in-bounds write with a level
above 15 with `InvalidColor`. -/
theorem lily_set_pixel_invalid (x y l : Nat) (fb : Epd47.FrameBuffer)
    (hx : x < Lily.WIDTH) (hy : y < Lily.HEIGHT) (hl : l > 15) :
    Lily.set_pixel x y l fb = .error .InvalidColor := by
  rw [Lily.set_pixel, if_neg (by omega), if_pos hl]

/-- Helper: `Display::set_pixel` succeeds on an in-bounds write with a
valid level. -/
theorem lily_set_pixel_ok (x y l : Nat) (fb : Epd47.FrameBuffer)
    (hx : x < Lily.WIDTH) (hy : y < Lily.HEIGHT) (hl : l ≤ 15) :
    ∃ fb2, Lily.set_pixel x y l fb = .ok fb2 := by
  rw [Lily.set_pixel, if_neg (by omega), if_neg (by omega)]
  dsimp only
  split_ifs <;> exact ⟨_, rfl⟩

/-- Helper: a stream whose gray levels are all valid draws to completion in
the graphics.rs bridge (out-of-truncated-bounds pixels are skipped). -/
theorem lily_draw_iter_ok (fb : Epd47.FrameBuffer)
    (ps : List (Int × Int × Nat)) (h : ∀ p ∈ ps, p.2.2 ≤ 15) :
    ∃ fb2, Lily.draw_iter fb ps = .ok fb2 := by
  induction ps generalizing fb with
  | nil => exact ⟨fb, rfl⟩
  | cons p rest ih =>
    obtain ⟨x, y, l⟩ := p
    have hl : l ≤ 15 := h (x, y, l) (by simp)
    have hrest : ∀ p ∈ rest, p.2.2 ≤ 15 := fun q hq => h q (by simp [hq])
    by_cases hb : Lily.trunc_u16 x < Lily.WIDTH ∧ Lily.trunc_u16 y < Lily.HEIGHT
    · obtain ⟨fb2, hfb2⟩ := lily_set_pixel_ok _ _ _ fb hb.1 hb.2 hl
      obtain ⟨fb3, hfb3⟩ := ih fb2 hrest
      exact ⟨fb3, by simp [Lily.draw_iter, hfb2, hfb3]⟩
    · obtain ⟨fb3, hfb3⟩ := ih fb hrest
      exact ⟨fb3, by simp [Lily.draw_iter, lily_set_pixel_oob _ _ _ fb hb, hfb3]⟩

/-- Helper: `Epd47Display::set_pixel` at an out-of-bounds coordinate. -/
theorem epd47_set_pixel_oob (x y c : Nat) (fb : Epd47.FrameBuffer)
    (h : x ≥ Epd47.DISPLAY_WIDTH ∨ y ≥ Epd47.DISPLAY_HEIGHT) :
    Epd47.set_pixel x y c fb = (.error .OutOfBounds, fb) := by
  rw [Epd47.set_pixel, if_pos h]

/-- C3 counterexample: the stream containing the single pixel
`(-65216, 7)` — whose x coordinate is negative, hence out of panel bounds —
completes, but the pixel is not skipped: the 16-bit truncation wraps it to
`(320, 7)` and level 0 is written there (the fresh framebuffer read 15), so
an out-of-bounds pixel of the stream was applied. -/
theorem C3_counterexample :
    ((-65216 : Int) < 0) ∧
    (Lily.draw_iter Epd47.initialFrameBuffer [((-65216 : Int), 7, 0)]).map
      (fun fb => Lily.get_pixel 320 7 fb) = .ok 0 ∧
    Lily.get_pixel 320 7 Epd47.initialFrameBuffer = 15 :=
  ⟨by decide, rfl, rfl⟩

/-- C3 amended: in the graphics.rs bridge each coordinate is truncated to
16 bits before the bounds check.  (1) A stream whose gray levels are all
valid draws to completion — pixels whose truncated coordinates are out of
panel bounds are skipped, not propagated; (2) a pixel whose truncated
coordinates are out of bounds leaves the draw unchanged; (3) an
`InvalidColor` error (level above 15 at in-truncated-bounds coordinates)
propagates and aborts the draw; (4) the epd47_idf.rs bridge, by contrast,
propagates `OutOfBounds` for a nonnegative coordinate beyond the panel,
aborting the draw. -/
theorem C3_draw_iter_clipping (fb : Epd47.FrameBuffer)
    (ps : List (Int × Int × Nat)) :
    ((∀ p ∈ ps, p.2.2 ≤ 15) → ∃ fb2, Lily.draw_iter fb ps = .ok fb2) ∧
    (∀ p : Int × Int × Nat, ∀ rest,
      ¬(Lily.trunc_u16 p.1 < Lily.WIDTH ∧ Lily.trunc_u16 p.2.1 < Lily.HEIGHT) →
      Lily.draw_iter fb (p :: rest) = Lily.draw_iter fb rest) ∧
    (∀ p : Int × Int × Nat, ∀ rest,
      Lily.trunc_u16 p.1 < Lily.WIDTH → Lily.trunc_u16 p.2.1 < Lily.HEIGHT →
      p.2.2 > 15 →
      Lily.draw_iter fb (p :: rest) = .error .InvalidColor) ∧
    (∀ p : Int × Int × Nat, ∀ rest, 0 ≤ p.1 → 0 ≤ p.2.1 →
      (p.1.toNat ≥ Epd47.DISPLAY_WIDTH ∨ p.2.1.toNat ≥ Epd47.DISPLAY_HEIGHT) →
      Epd47.draw_iter fb (p :: rest) = .error .OutOfBounds) := by
  refine ⟨fun h => lily_draw_iter_ok fb ps h, ?_, ?_, ?_⟩
  · intro p rest h
    obtain ⟨x, y, l⟩ := p
    simp [Lily.draw_iter, lily_set_pixel_oob _ _ _ fb h]
  · intro p rest hx hy hl
    obtain ⟨x, y, l⟩ := p
    simp [Lily.draw_iter, lily_set_pixel_invalid _ _ _ fb hx hy hl]
  · intro p rest hx hy hb
    obtain ⟨x, y, l⟩ := p
    simp only at hx hy hb
    simp [Epd47.draw_iter, hx, hy, epd47_set_pixel_oob _ _ _ fb hb]

/-- Witness for C3: a valid one-pixel stream completes; prepending an
out-of-bounds pixel (1000, 0) changes nothing; an invalid level 99 aborts
with `InvalidColor`; and the epd47_idf.rs bridge aborts with `OutOfBounds`
on the same (1000, 0). -/
theorem C3_witness :
    (∃ fb2, Lily.draw_iter Epd47.initialFrameBuffer [((2 : Int), 3, 7)] =
      .ok fb2) ∧
    Lily.draw_iter Epd47.initialFrameBuffer
        [((1000 : Int), 0, 3), ((2 : Int), 3, 7)] =
      Lily.draw_iter Epd47.initialFrameBuffer [((2 : Int), 3, 7)] ∧
    Lily.draw_iter Epd47.initialFrameBuffer [((2 : Int), 3, 99)] =
      .error .InvalidColor ∧
    Epd47.draw_iter Epd47.initialFrameBuffer [((1000 : Int), 0, 3)] =
      .error .OutOfBounds :=
  ⟨(C3_draw_iter_clipping Epd47.initialFrameBuffer
      [((2 : Int), 3, 7)]).1 (by decide),
    (C3_draw_iter_clipping Epd47.initialFrameBuffer
      [((2 : Int), 3, 7)]).2.1 ((1000 : Int), 0, 3) [((2 : Int), 3, 7)]
      (by decide),
    (C3_draw_iter_clipping Epd47.initialFrameBuffer []).2.2.1
      ((2 : Int), 3, 99) [] (by decide) (by decide) (by decide),
    (C3_draw_iter_clipping Epd47.initialFrameBuffer []).2.2.2
      ((1000 : Int), 0, 3) [] (by decide) (by decide) (by decide)⟩
